import Mathlib

/-!
Verification of the pathfinder demo frame-control core, shallowly embedded
from src/demo/src/main.rs. Machine floats are idealised as exact rationals;
trigonometric evaluation is passed in as an oracle argument where the source
calls into the external geometry crate.
-/

set_option autoImplicit false

namespace PFDemo

/-- Component-wise integer point, embedding pathfinder_geometry Point2DI32. -/
structure Point2DI32 where
  x : Int
  y : Int
deriving DecidableEq

/-- Modelled from the spec: scalar scaling of an integer point multiplies each
coordinate (Point2DI32.scale lives in pathfinder_geometry, not under src). -/
def Point2DI32.scale (p : Point2DI32) (s : Int) : Point2DI32 :=
  Point2DI32.mk (p.x * s) (p.y * s)

/-- Component-wise rational point, embedding Point2DF32 (f32 idealised as rational). -/
structure Point2DF32 where
  x : Rat
  y : Rat
deriving DecidableEq

/-- Modelled from the spec: the default 2D point is the zero vector
(Point2DF32 default lives in pathfinder_geometry, not under src; the spec says
the dilation falls back to the zero vector). -/
def Point2DF32.default : Point2DF32 :=
  Point2DF32.mk 0 0

/-- Modelled from the spec: scalar scaling multiplies each coordinate
(Point2DF32.scale lives in pathfinder_geometry, not under src). -/
def Point2DF32.scale (p : Point2DF32) (s : Rat) : Point2DF32 :=
  Point2DF32.mk (p.x * s) (p.y * s)

/-- Three-dimensional rational vector, embedding Point3DF32 as the spec's
CameraState 3-vector (the homogeneous w component is not observed by the core). -/
structure Point3DF32 where
  x : Rat
  y : Rat
  z : Rat
deriving DecidableEq

/-- Modelled from the spec: component-wise addition of 3-vectors. -/
def Point3DF32.add (a b : Point3DF32) : Point3DF32 :=
  Point3DF32.mk (a.x + b.x) (a.y + b.y) (a.z + b.z)

instance : Add Point3DF32 := ⟨Point3DF32.add⟩

/-- Modelled from the spec: scalar scaling of a 3-vector. -/
def Point3DF32.scale (v : Point3DF32) (s : Rat) : Point3DF32 :=
  Point3DF32.mk (v.x * s) (v.y * s) (v.z * s)

/-- Modelled from the spec: the camera velocity is the zero vector exactly when
all of its components are zero (Point3DF32.is_zero lives in pathfinder_geometry,
not under src). -/
def Point3DF32.is_zero (v : Point3DF32) : Bool :=
  decide (v = Point3DF32.mk 0 0 0)

/-- Axis-aligned rational rectangle given by origin and size, embedding RectF32. -/
structure RectF32 where
  origin : Point2DF32
  size : Point2DF32
deriving DecidableEq

/-- Axis-aligned integer rectangle given by origin and size, embedding RectI32. -/
structure RectI32 where
  origin : Point2DI32
  size : Point2DI32
deriving DecidableEq

/-- Modelled from the spec: rectangle membership is the usual half-open
containment test (RectI32.contains_point lives in pathfinder_geometry, not
under src; the spec exposes widget hit-testing only through this test). -/
def RectI32.contains_point (rect : RectI32) (p : Point2DI32) : Bool :=
  decide (rect.origin.x ≤ p.x) && decide (p.x < rect.origin.x + rect.size.x) &&
  decide (rect.origin.y ≤ p.y) && decide (p.y < rect.origin.y + rect.size.y)

/-- Constant CAMERA_VELOCITY from main.rs line 50. -/
def CAMERA_VELOCITY : Rat := 25

/-- Constant APPROX_FONT_SIZE from main.rs line 60. -/
def APPROX_FONT_SIZE : Rat := 16

/-- Constant WORLD_SCALE from main.rs line 62. -/
def WORLD_SCALE : Rat := 1 / 800

/-- Three-dimensional transform built by the external geometry crate. The
constructors record exactly the operations main.rs performs on it
(from_perspective stores aspect, near and far; the field-of-view constant
FRAC_PI_4 is fixed and therefore not stored); the matrix contents themselves
are external to src and never inspected by the core. -/
inductive Transform3DF32 where
  | from_perspective (aspect near far : Rat)
  | from_scale (sx sy sz : Rat)
  | from_rotation (yaw pitch roll : Rat)
  | from_translation (tx ty tz : Rat)
  | post_mul (a b : Transform3DF32)
deriving DecidableEq

/-- A perspective value pairs a 3D transform with the drawable size,
embedding Perspective::new from pathfinder_geometry. -/
structure Perspective where
  transform : Transform3DF32
  drawable_width : Rat
  drawable_height : Rat
deriving DecidableEq

/-- Embedding of Perspective::new. -/
def Perspective.new (t : Transform3DF32) (w h : Rat) : Perspective :=
  Perspective.mk t w h

/-- Two-dimensional affine transform as a 2x3 rational matrix, embedding
Transform2DF32. -/
structure Transform2DF32 where
  m11 : Rat
  m12 : Rat
  m21 : Rat
  m22 : Rat
  m31 : Rat
  m32 : Rat
deriving DecidableEq

/-- Modelled from the spec: the default 2D transform is the identity
(Transform2DF32 default lives in pathfinder_geometry, not under src; the spec
says that in 2D mode the transform is the identity). -/
def Transform2DF32.default : Transform2DF32 :=
  Transform2DF32.mk 1 0 0 1 0 0

/-- BuildOptions from main.rs lines 376-379. -/
structure BuildOptions where
  perspective : Option Perspective
  stem_darkening_font_size : Option Rat
deriving DecidableEq

/-- RenderTransform from pathfinder_renderer as consumed by main.rs lines 445-448:
either a 2D transform or a perspective transform. -/
inductive RenderTransform where
  | Transform2D (t : Transform2DF32)
  | Perspective (p : Perspective)
deriving DecidableEq

/-- RenderOptions as constructed by main.rs lines 444-456. -/
structure RenderOptions where
  transform : RenderTransform
  dilation : Point2DF32
deriving DecidableEq

/-- The render options computed by the free function build_scene in main.rs
lines 444-456 from the received BuildOptions. The per-axis stem-darkening
factors are passed as an argument because STEM_DARKENING_FACTORS lives in
pathfinder_renderer, not under src; the spec calls them fixed per-axis factors. -/
def renderOptionsOf (factors : Rat × Rat) (build_options : BuildOptions) : RenderOptions :=
  RenderOptions.mk
    (match build_options.perspective with
      | none => RenderTransform.Transform2D Transform2DF32.default
      | some p => RenderTransform.Perspective p)
    (match build_options.stem_darkening_font_size with
      | none => Point2DF32.default
      | some font_size => (Point2DF32.mk factors.1 factors.2).scale font_size)

/-- The BuildOptions value constructed in main.rs lines 204-211: the
Build Request Assembler of the spec, a function of the stem-darkening toggle,
the display scale factor and the camera output. -/
def assembleBuildOptions (stem_darkening_effect_enabled : Bool) (scale_factor : Rat)
    (perspective : Option Perspective) : BuildOptions :=
  BuildOptions.mk perspective
    (if stem_darkening_effect_enabled then some (APPROX_FONT_SIZE * scale_factor) else none)

/-- DemoUI toggle state from main.rs lines 486-495 (the texture handles are
external GPU resources and carry no state observed by the core). -/
structure DemoUI where
  threed_enabled : Bool
  effects_window_visible : Bool
  gamma_correction_effect_enabled : Bool
  stem_darkening_effect_enabled : Bool
  subpixel_aa_effect_enabled : Bool
deriving DecidableEq

/-- The DemoApp fields read or written by the frame-control core, from main.rs
lines 71-97. The window, SDL, GL and renderer handles are external; the
drawable size the source reads back from the window is kept as two fields. -/
structure DemoApp where
  scale_factor : Rat
  camera_position : Point3DF32
  camera_velocity : Point3DF32
  camera_yaw : Rat
  camera_pitch : Rat
  frame_counter : Nat
  exit : Bool
  mouselook_enabled : Bool
  ui_event_handled_last_frame : Bool
  ui : DemoUI
  drawable_width : Nat
  drawable_height : Nat
deriving DecidableEq

/-- Modelled from the spec: rotation of a camera-local vector by yaw and pitch
(first about the pitch axis, then about the yaw axis). Transform3DF32's
from_rotation and transform_point live in pathfinder_geometry, not under src;
the spec says the per-frame integration rotates the velocity vector by the
current yaw and pitch. The argument trig returns the exact cosine and sine of
an angle, standing in for machine trigonometric evaluation. -/
def rotateVec (trig : Rat → Rat × Rat) (yaw pitch : Rat) (v : Point3DF32) : Point3DF32 :=
  let cy := (trig yaw).1
  let sy := (trig yaw).2
  let cp := (trig pitch).1
  let sp := (trig pitch).2
  let v1 := Point3DF32.mk v.x (cp * v.y - sp * v.z) (sp * v.y + cp * v.z)
  Point3DF32.mk (cy * v1.x + sy * v1.z) v1.y (-sy * v1.x + cy * v1.z)

/-- MainToSceneMsg from main.rs lines 371-374. -/
inductive MainToSceneMsg where
  | SetDrawableSize (width height : Nat)
  | Build (options : BuildOptions)
deriving DecidableEq

/-- Whether a request message is a Build request. -/
def MainToSceneMsg.isBuild : MainToSceneMsg → Bool
  | MainToSceneMsg.Build _ => true
  | _ => false

/-- The scene state owned by the worker, from pathfinder_renderer as used by
main.rs: the view rectangle mutable via resize messages plus an opaque tag for
the geometry and paint data the core never inspects. -/
structure Scene where
  view_box : RectF32
  contents : Nat
deriving DecidableEq

/-- The opaque result of a build, embedding BuiltScene: the view rectangle it
was built for plus an opaque tag for the tiled output. -/
structure BuiltScene where
  view_box : RectF32
  built_objects : Nat
deriving DecidableEq

/-- SceneToMainMsg from main.rs lines 381-383. The tile_time field is a
wall-clock duration and is outside the embedding. -/
inductive SceneToMainMsg where
  | Render (built_scene : BuiltScene)
deriving DecidableEq

/-- Outcome of the free function build_scene (main.rs lines 441-484): either a
built scene, or a controlled process exit carrying the diagnostic scene dump
and the exit code after the opaque build call terminated abnormally. -/
inductive BuildOutcome where
  | ok (built_scene : BuiltScene)
  | exited (dumped_scene : Scene) (code : Nat)
deriving DecidableEq

/-- The free function build_scene from main.rs lines 441-484. The opaque call
scene.build_objects / build_objects_sequentially (chosen by the jobs option)
wrapped in catch_unwind is the argument build_objects: an error value is an
abnormal termination (panic) of the build, an ok value the opaque built
objects. On error the source prints the scene and calls process::exit(1);
on success it assembles the built scene through external SceneBuilder calls. -/
def build_scene (factors : Rat × Rat) (build_objects : Scene → RenderOptions → Except Unit Nat)
    (scene : Scene) (build_options : BuildOptions) : BuildOutcome :=
  let render_options := renderOptionsOf factors build_options
  match build_objects scene render_options with
  | Except.error _ => BuildOutcome.exited scene 1
  | Except.ok objs => BuildOutcome.ok (BuiltScene.mk scene.view_box objs)

/-- The Build arm of the worker receive loop, main.rs lines 360-365: on a
successful build exactly one Render response is sent; when build_scene exits
the process, no response is sent and the exit (dump, code) is reported. -/
def handleBuildMsg (factors : Rat × Rat) (build_objects : Scene → RenderOptions → Except Unit Nat)
    (scene : Scene) (options : BuildOptions) : List SceneToMainMsg × Option (Scene × Nat) :=
  match build_scene factors build_objects scene options with
  | BuildOutcome.ok built_scene => ([SceneToMainMsg.Render built_scene], none)
  | BuildOutcome.exited dump code => ([], some (dump, code))

/-- State of the scene worker thread: running with the scene and the remaining
queued requests (the request channel is closed after them), stopped after the
receive loop exited on a closed channel, or exited because a build crashed. -/
inductive WorkerState where
  | running (scene : Scene) (pending : List MainToSceneMsg)
  | stopped (scene : Scene)
  | exited (dump : Scene) (code : Nat)
deriving DecidableEq

/-- One step of SceneThread::run from main.rs lines 352-368: a failed recv on
the closed channel exits the loop; a SetDrawableSize message resets the view
rectangle; a Build message runs build_scene and either continues or takes the
whole process down. -/
def workerStep (factors : Rat × Rat) (build_objects : Scene → RenderOptions → Except Unit Nat) :
    WorkerState → WorkerState
  | WorkerState.running scene [] => WorkerState.stopped scene
  | WorkerState.running scene (MainToSceneMsg.SetDrawableSize w h :: rest) =>
      WorkerState.running
        (Scene.mk (RectF32.mk (Point2DF32.mk 0 0) (Point2DF32.mk w h)) scene.contents) rest
  | WorkerState.running scene (MainToSceneMsg.Build options :: rest) =>
      match (handleBuildMsg factors build_objects scene options).2 with
      | none => WorkerState.running scene rest
      | some (dump, code) => WorkerState.exited dump code
  | WorkerState.stopped scene => WorkerState.stopped scene
  | WorkerState.exited dump code => WorkerState.exited dump code

/-- Whether the worker has left its receive loop. -/
def WorkerState.isTerminal : WorkerState → Bool
  | WorkerState.running _ _ => false
  | _ => true

/-- Result of one receive on the response channel. -/
inductive RecvResult where
  | msg (m : SceneToMainMsg)
  | wouldBlock
  | disconnected
deriving DecidableEq

/-- The blocking receive of main.rs line 167 over the response channel,
embedding mpsc recv: a buffered message is returned; with an empty buffer the
call blocks while the worker-side sender is alive and fails with a disconnect
error once it has been dropped. -/
def recv_artifact (buffer : List SceneToMainMsg) (sender_alive : Bool) : RecvResult :=
  match buffer with
  | m :: _ => RecvResult.msg m
  | [] => if sender_alive then RecvResult.wouldBlock else RecvResult.disconnected

/-- DemoApp::build_scene from main.rs lines 172-213: when 3D is enabled the
camera position is advanced by the rotated velocity and a perspective value is
composed; then count Build requests carrying the assembled options are sent
(two on frame 0, one afterwards). Returns the updated app state and the list
of sent request messages. -/
def DemoApp.build_scene (trig : Rat → Rat × Rat) (app : DemoApp) :
    DemoApp × List MainToSceneMsg :=
  let drawable_width : Rat := app.drawable_width
  let drawable_height : Rat := app.drawable_height
  let perspective_app : Option Perspective × DemoApp :=
    if app.ui.threed_enabled then
      let camera_position := app.camera_position +
        rotateVec trig (-app.camera_yaw) (-app.camera_pitch) app.camera_velocity
      let aspect := drawable_width / drawable_height
      let transform := Transform3DF32.from_perspective aspect (1 / 40) 100
      let transform := transform.post_mul (Transform3DF32.from_scale WORLD_SCALE WORLD_SCALE WORLD_SCALE)
      let transform := transform.post_mul
        (Transform3DF32.from_rotation app.camera_yaw app.camera_pitch 0)
      let translation := camera_position.scale (-1)
      let transform := transform.post_mul
        (Transform3DF32.from_translation translation.x translation.y translation.z)
      (some (Perspective.new transform drawable_width drawable_height),
        { app with camera_position := camera_position })
    else
      (none, app)
  let count := if app.frame_counter = 0 then 2 else 1
  let options := assembleBuildOptions app.ui.stem_darkening_effect_enabled app.scale_factor
    perspective_app.1
  (perspective_app.2, List.replicate count (MainToSceneMsg.Build options))

/-- The wait decision of DemoApp::handle_events, main.rs lines 218-219. -/
def DemoApp.wait_for_event (app : DemoApp) : Bool :=
  !app.camera_velocity.is_zero && decide (2 ≤ app.frame_counter) &&
    !app.ui_event_handled_last_frame

/-- Abstract input events at the SDL boundary, as matched in main.rs
lines 228-268. -/
inductive Keycode where
  | Escape
  | W
  | A
  | S
  | D
deriving DecidableEq

/-- SDL events consumed by the frame loop. -/
inductive Event where
  | Quit
  | KeyDown (keycode : Option Keycode)
  | KeyUp (keycode : Option Keycode)
  | SizeChanged (width height : Nat)
  | MouseButtonDown (x y : Int)
  | MouseMotion (xrel yrel : Int)
deriving DecidableEq

/-- The events collected by DemoApp::handle_events, main.rs lines 220-225:
when the wait decision is positive, one blocking wait_event result is pushed
first; then the already-queued events are drained without blocking. -/
def collectedEvents (app : DemoApp) (blocked_event : Event) (queued : List Event) : List Event :=
  (if app.wait_for_event then [blocked_event] else []) ++ queued

/-- Modelled from the Rust numeric cast semantics used at main.rs line 241:
a float-to-integer cast truncates toward zero. On exact rationals this is
the truncated quotient of numerator by denominator. -/
def f32_as_i32 (q : Rat) : Int :=
  Int.tdiv q.num q.den

/-- UIEvent from main.rs lines 649-652. -/
inductive UIEvent where
  | None
  | MouseDown (point : Point2DI32)
deriving DecidableEq

/-- UIEvent::is_none from main.rs lines 655-657. -/
def UIEvent.is_none : UIEvent → Bool
  | UIEvent.None => true
  | UIEvent.MouseDown _ => false

/-- The MouseButtonDown arm of main.rs lines 240-243: the pending UI event
becomes a mouse-down at the window coordinates scaled by the scale factor
cast to an integer. -/
def mouse_down_ui_event (scale_factor : Rat) (x y : Int) : UIEvent :=
  UIEvent.MouseDown ((Point2DI32.mk x y).scale (f32_as_i32 scale_factor))

/-- UIEvent::handle_mouse_down_in_rect from main.rs lines 659-667: a pending
mouse-down inside the rectangle is consumed (the event becomes None and true
is returned); otherwise the event is left in place. Returns the flag together
with the updated event, since the source mutates self. -/
def UIEvent.handle_mouse_down_in_rect (e : UIEvent) (rect : RectI32) : Bool × UIEvent :=
  match e with
  | UIEvent.MouseDown point =>
      if rect.contains_point point then (true, UIEvent.None) else (false, e)
  | UIEvent.None => (false, e)

/-- The handled-flag computation of DemoApp::draw_scene, main.rs lines 304-306:
had_ui_event is assigned ui_event.is_none(), the UI update (whose effect on the
pending event is the argument ui_update, Demo UI widget drawing being external)
runs, and the flag becomes had_ui_event combined with is_none of the updated
event. -/
def ui_event_handled_update (ui_update : UIEvent → UIEvent) (ui_event : UIEvent) : Bool :=
  let had_ui_event := ui_event.is_none
  let updated := ui_update ui_event
  had_ui_event && updated.is_none

/-- Modelled from the spec: the flag the claim describes, true exactly when a
pending UI event was present before presentation and the UI layer consumed it.
Stated for comparison with ui_event_handled_update. -/
def specHandledFlag (ui_update : UIEvent → UIEvent) (ui_event : UIEvent) : Bool :=
  !ui_event.is_none && (ui_update ui_event).is_none

/-- A sample 2D app state: 3D disabled, non-zero camera velocity. -/
def sampleApp2D : DemoApp :=
  DemoApp.mk 1 (Point3DF32.mk 500 500 3000) (Point3DF32.mk 0 0 (-25)) 0 0 3 false false false
    (DemoUI.mk false false false false false) 1067 800

/-- A sample 3D app state: 3D enabled, velocity (0,0,-25), yaw and pitch zero. -/
def sampleApp3D : DemoApp :=
  DemoApp.mk 1 (Point3DF32.mk 500 500 3000) (Point3DF32.mk 0 0 (-25)) 0 0 3 false false false
    (DemoUI.mk true false false false false) 1067 800

/-- A trigonometric oracle agreeing with cosine and sine at angle zero. -/
def trigId : Rat → Rat × Rat :=
  fun _ => (1, 0)

/-- A sample worker scene. -/
def sampleScene : Scene :=
  Scene.mk (RectF32.mk (Point2DF32.mk 0 0) (Point2DF32.mk 1067 800)) 0

/-- Sample build options with no perspective and no stem darkening. -/
def sampleOptions : BuildOptions :=
  BuildOptions.mk none none

/-- Vector addition on Point3DF32 unfolds component-wise. -/
theorem Point3DF32.add_def (a b : Point3DF32) :
    a + b = Point3DF32.mk (a.x + b.x) (a.y + b.y) (a.z + b.z) :=
  rfl

/-- Adding the zero vector leaves a point unchanged. -/
theorem Point3DF32.add_zero_vec (v : Point3DF32) : v + Point3DF32.mk 0 0 0 = v := by
  cases v
  simp [Point3DF32.add_def]

/-- Rotating the zero vector yields the zero vector for every trig oracle. -/
theorem rotateVec_zero (trig : Rat → Rat × Rat) (yaw pitch : Rat) :
    rotateVec trig yaw pitch (Point3DF32.mk 0 0 0) = Point3DF32.mk 0 0 0 := by
  simp [rotateVec]

/-- A terminal worker state is a fixed point of the step function. -/
theorem workerStep_fixed (factors : Rat × Rat)
    (build_objects : Scene → RenderOptions → Except Unit Nat) (s : WorkerState)
    (h : s.isTerminal = true) : workerStep factors build_objects s = s := by
  cases s with
  | running scene pending => simp [WorkerState.isTerminal] at h
  | stopped scene => rfl
  | exited dump code => rfl

/-- Iterating the step function fixes a terminal worker state. -/
theorem workerStep_iterate_fixed (factors : Rat × Rat)
    (build_objects : Scene → RenderOptions → Except Unit Nat) (n : Nat) (s : WorkerState)
    (h : s.isTerminal = true) : (workerStep factors build_objects)^[n] s = s := by
  induction n with
  | zero => rfl
  | succ n ih => rw [Function.iterate_succ_apply, workerStep_fixed factors build_objects s h, ih]

/-- The worker receive loop reaches a terminal state once the queued requests
are exhausted: one step per message plus one failing receive on the closed
channel. -/
theorem worker_terminates (factors : Rat × Rat)
    (build_objects : Scene → RenderOptions → Except Unit Nat) :
    ∀ (msgs : List MainToSceneMsg) (scene : Scene),
      (((workerStep factors build_objects)^[msgs.length + 1]
        (WorkerState.running scene msgs)).isTerminal) = true := by
  intro msgs
  induction msgs with
  | nil => intro scene; rfl
  | cons m rest ih =>
    intro scene
    rw [List.length_cons, Function.iterate_succ_apply]
    cases m with
    | SetDrawableSize w h => exact ih _
    | Build options =>
      cases hB : (handleBuildMsg factors build_objects scene options).2 with
      | none =>
        have hstep : workerStep factors build_objects
            (WorkerState.running scene (MainToSceneMsg.Build options :: rest)) =
            WorkerState.running scene rest := by
          simp [workerStep, hB]
        rw [hstep]
        exact ih scene
      | some dc =>
        have hstep : workerStep factors build_objects
            (WorkerState.running scene (MainToSceneMsg.Build options :: rest)) =
            WorkerState.exited dc.1 dc.2 := by
          simp [workerStep, hB]
        rw [hstep, workerStep_iterate_fixed factors build_objects (rest.length + 1)
          (WorkerState.exited dc.1 dc.2) rfl]
        rfl

/-- C1: on every run of the frame loop body, frame 0 sends exactly two Build
requests to the scene worker and every frame with counter greater than zero
sends exactly one. -/
theorem c1_frame_build_request_count (trig : Rat → Rat × Rat) (app : DemoApp) :
    ((app.build_scene trig).2.countP MainToSceneMsg.isBuild) =
      if app.frame_counter = 0 then 2 else 1 := by
  by_cases h : app.frame_counter = 0 <;>
    simp [DemoApp.build_scene, h, MainToSceneMsg.isBuild, List.countP, List.countP.go,
      List.replicate]

/-- C2: when the opaque build call terminates abnormally, the worker's
build_scene dumps the scene and exits the process with the non-zero code 1,
and the Build arm of the receive loop sends no response message. -/
theorem c2_build_crash_containment (factors : Rat × Rat)
    (build_objects : Scene → RenderOptions → Except Unit Nat) (scene : Scene)
    (options : BuildOptions)
    (h : build_objects scene (renderOptionsOf factors options) = Except.error ()) :
    build_scene factors build_objects scene options = BuildOutcome.exited scene 1 ∧
    handleBuildMsg factors build_objects scene options = ([], some (scene, 1)) ∧
    (1 : Nat) ≠ 0 := by
  have hb : build_scene factors build_objects scene options = BuildOutcome.exited scene 1 := by
    simp [build_scene, h]
  exact ⟨hb, by simp [handleBuildMsg, hb], by decide⟩

/-- C2 witness: a concrete crashing build is contained as an exit with code 1. -/
theorem c2_build_crash_containment_witness :
    (fun (_ : Scene) (_ : RenderOptions) => (Except.error () : Except Unit Nat)) sampleScene
      (renderOptionsOf (0, 0) sampleOptions) = Except.error () ∧
    build_scene (0, 0) (fun _ _ => Except.error ()) sampleScene sampleOptions =
      BuildOutcome.exited sampleScene 1 :=
  ⟨rfl,
    (c2_build_crash_containment (0, 0) (fun _ _ => Except.error ()) sampleScene sampleOptions
      rfl).1⟩

/-- C3: at the failing input, a pending mouse-down consumed by a widget
rectangle leaves the code's handled-last-frame flag false, while the flag the
specification describes is true: the source assigns had_ui_event the value
ui_event.is_none(), inverting the meaning its own name and the spec demand. -/
theorem c3_flag_code_divergence :
    (UIEvent.handle_mouse_down_in_rect (UIEvent.MouseDown (Point2DI32.mk 5 5))
        (RectI32.mk (Point2DI32.mk 0 0) (Point2DI32.mk 100 100))).2.is_none = true ∧
    ui_event_handled_update
        (fun e => (UIEvent.handle_mouse_down_in_rect e
          (RectI32.mk (Point2DI32.mk 0 0) (Point2DI32.mk 100 100))).2)
        (UIEvent.MouseDown (Point2DI32.mk 5 5)) = false ∧
    specHandledFlag
        (fun e => (UIEvent.handle_mouse_down_in_rect e
          (RectI32.mk (Point2DI32.mk 0 0) (Point2DI32.mk 100 100))).2)
        (UIEvent.MouseDown (Point2DI32.mk 5 5)) = true := by
  decide

/-- C4: the input-collection step blocks for one event exactly when the camera
velocity is non-zero, at least two frames have elapsed and the previous
frame's handled flag was false; otherwise only the already-queued events are
drained. -/
theorem c4_wait_policy (app : DemoApp) (blocked_event : Event) (queued : List Event) :
    (app.wait_for_event = true ↔
      (app.camera_velocity ≠ Point3DF32.mk 0 0 0 ∧ 2 ≤ app.frame_counter ∧
        app.ui_event_handled_last_frame = false)) ∧
    collectedEvents app blocked_event queued =
      if app.wait_for_event then blocked_event :: queued else queued := by
  constructor
  · simp [DemoApp.wait_for_event, Point3DF32.is_zero, and_assoc]
  · by_cases h : app.wait_for_event <;> simp [collectedEvents, h]

/-- C4 witness: a moving camera past frame two with the flag clear blocks. -/
theorem c4_wait_policy_witness : sampleApp2D.wait_for_event = true := by
  have h := (c4_wait_policy sampleApp2D Event.Quit []).1
  exact h.mpr ⟨by decide, by decide, rfl⟩

/-- C5: with 3D enabled, the new camera position is the old position plus the
velocity rotated by the current yaw and pitch; zero velocity leaves the
position unchanged for every yaw and pitch, and velocity (0,0,-25) with yaw
and pitch zero moves the position 25 down the z axis only. -/
theorem c5_camera_integration (trig : Rat → Rat × Rat) (app : DemoApp)
    (h3d : app.ui.threed_enabled = true) :
    ((app.build_scene trig).1.camera_position =
      app.camera_position +
        rotateVec trig (-app.camera_yaw) (-app.camera_pitch) app.camera_velocity) ∧
    (app.camera_velocity = Point3DF32.mk 0 0 0 →
      (app.build_scene trig).1.camera_position = app.camera_position) ∧
    (app.camera_yaw = 0 → app.camera_pitch = 0 → trig 0 = (1, 0) →
      app.camera_velocity = Point3DF32.mk 0 0 (-25) →
      (app.build_scene trig).1.camera_position =
        Point3DF32.mk app.camera_position.x app.camera_position.y
          (app.camera_position.z - 25)) := by
  have hfst : (app.build_scene trig).1.camera_position =
      app.camera_position +
        rotateVec trig (-app.camera_yaw) (-app.camera_pitch) app.camera_velocity := by
    simp [DemoApp.build_scene, h3d]
  refine ⟨hfst, ?_, ?_⟩
  · intro hv
    rw [hfst, hv, rotateVec_zero, Point3DF32.add_zero_vec]
  · intro hy hp ht hv
    rw [hfst, hy, hp, hv]
    simp [rotateVec, neg_zero, ht, Point3DF32.add_def]
    ring

/-- C5 witness: one concrete integration step from (500,500,3000) at velocity
(0,0,-25) with yaw and pitch zero lands at (500,500,2975). -/
theorem c5_camera_integration_witness :
    sampleApp3D.ui.threed_enabled = true ∧
    (sampleApp3D.build_scene trigId).1.camera_position = Point3DF32.mk 500 500 2975 := by
  refine ⟨rfl, ?_⟩
  have h := (c5_camera_integration trigId sampleApp3D rfl).2.2 rfl rfl rfl rfl
  rw [h]
  norm_num [sampleApp3D]

/-- C6: the worker receive loop reaches a terminal state after consuming the
queued requests on a closed channel, and once it is no longer running the next
blocking receive of an artifact on an empty response buffer fails with a
disconnect result instead of blocking. -/
theorem c6_worker_termination (factors : Rat × Rat)
    (build_objects : Scene → RenderOptions → Except Unit Nat) (scene : Scene)
    (msgs : List MainToSceneMsg) :
    (((workerStep factors build_objects)^[msgs.length + 1]
        (WorkerState.running scene msgs)).isTerminal) = true ∧
    recv_artifact []
        (!((workerStep factors build_objects)^[msgs.length + 1]
          (WorkerState.running scene msgs)).isTerminal) = RecvResult.disconnected := by
  have h := worker_terminates factors build_objects msgs scene
  refine ⟨h, ?_⟩
  rw [h]
  rfl

/-- C7: with the 3D toggle disabled, the frame leaves the whole app state (in
particular the camera position) unchanged and every Build request it sends
carries no perspective, so the worker derives the identity 2D transform and
never a perspective transform. -/
theorem c7_twod_identity (factors : Rat × Rat) (trig : Rat → Rat × Rat) (app : DemoApp)
    (h2d : app.ui.threed_enabled = false) :
    (app.build_scene trig).1 = app ∧
    ∀ m ∈ (app.build_scene trig).2, ∃ options, m = MainToSceneMsg.Build options ∧
      options.perspective = none ∧
      (renderOptionsOf factors options).transform =
        RenderTransform.Transform2D Transform2DF32.default := by
  have hsnd : (app.build_scene trig).2 =
      List.replicate (if app.frame_counter = 0 then 2 else 1)
        (MainToSceneMsg.Build
          (assembleBuildOptions app.ui.stem_darkening_effect_enabled app.scale_factor none)) := by
    simp [DemoApp.build_scene, h2d]
  refine ⟨by simp [DemoApp.build_scene, h2d], ?_⟩
  intro m hm
  rw [hsnd] at hm
  have hme := List.eq_of_mem_replicate hm
  subst hme
  refine ⟨_, rfl, rfl, ?_⟩
  simp [renderOptionsOf, assembleBuildOptions]

/-- C7 witness: a concrete 2D frame with non-zero velocity leaves the state
unchanged. -/
theorem c7_twod_identity_witness :
    sampleApp2D.ui.threed_enabled = false ∧
    (sampleApp2D.build_scene trigId).1 = sampleApp2D :=
  ⟨rfl, (c7_twod_identity (0, 0) trigId sampleApp2D rfl).1⟩

/-- C8: the Build Request Assembler is deterministic, identical inputs give
identical BuildOptions, and within any single frame every Build request sent
carries one and the same options value. -/
theorem c8_assembler_deterministic (stem stem2 : Bool) (sf sf2 : Rat)
    (p p2 : Option Perspective) (trig : Rat → Rat × Rat) (app : DemoApp)
    (h1 : stem = stem2) (h2 : sf = sf2) (h3 : p = p2) :
    assembleBuildOptions stem sf p = assembleBuildOptions stem2 sf2 p2 ∧
    ∃ options, (app.build_scene trig).2 =
      List.replicate (if app.frame_counter = 0 then 2 else 1)
        (MainToSceneMsg.Build options) := by
  subst h1
  subst h2
  subst h3
  exact ⟨rfl, ⟨_, rfl⟩⟩

/-- C8 witness: the assembler applied twice to one concrete input agrees. -/
theorem c8_assembler_deterministic_witness :
    assembleBuildOptions true (3 / 2) none = assembleBuildOptions true (3 / 2) none :=
  (c8_assembler_deterministic true true (3 / 2) (3 / 2) none none trigId sampleApp2D rfl rfl
    rfl).1

/-- C9: with stem darkening off the dilation is the zero vector for every
scale factor; with it on, the dilation is the per-axis factors scaled by the
approximate font size times the display scale factor. -/
theorem c9_dilation (factors : Rat × Rat) (stem : Bool) (scale_factor : Rat)
    (perspective : Option Perspective) :
    (renderOptionsOf factors (assembleBuildOptions stem scale_factor perspective)).dilation =
      if stem then
        Point2DF32.mk (factors.1 * (APPROX_FONT_SIZE * scale_factor))
          (factors.2 * (APPROX_FONT_SIZE * scale_factor))
      else Point2DF32.mk 0 0 := by
  cases stem <;>
    simp [renderOptionsOf, assembleBuildOptions, Point2DF32.scale, Point2DF32.default]

/-- C10: a primary pointer-down at (x, y) is recorded at (x, y) scaled by the
scale factor truncated to an integer; a fractional scale factor such as 3/2
contributes only its integer part 1. -/
theorem c10_mouse_down_truncation :
    (∀ (scale_factor : Rat) (x y : Int), mouse_down_ui_event scale_factor x y =
      UIEvent.MouseDown
        (Point2DI32.mk (x * f32_as_i32 scale_factor) (y * f32_as_i32 scale_factor))) ∧
    f32_as_i32 (3 / 2) = 1 ∧
    mouse_down_ui_event (3 / 2) 10 20 = UIEvent.MouseDown (Point2DI32.mk 10 20) := by
  have hnum : ((3 : Rat) / 2).num = 3 := by norm_num
  have hden : ((3 : Rat) / 2).den = 2 := by norm_num
  have h : f32_as_i32 ((3 : Rat) / 2) = 1 := by
    unfold f32_as_i32
    rw [hnum, hden]
    decide
  refine ⟨fun _ _ _ => rfl, h, ?_⟩
  unfold mouse_down_ui_event
  rw [h]
  decide

end PFDemo
